import Mathlib

/-!
Shallow embedding of the hungry-chameleon game core
(src/hungry_chameleon/{models.py, game.py, utils.py}) and verification of
the frozen claims about it.

Modelling conventions:
* 2D float vectors (pygame `Vector2`) are modelled as pairs of rationals.
* `pygame.time.get_ticks()` values are natural numbers supplied as inputs.
* Keyboard state (`keys[K_SPACE]`) is a boolean input per frame.
* Euclidean-distance comparisons are encoded on squares: for `s = distSq a b`
  (a sum of squares, hence nonnegative) and a threshold `t`,
  `Real.sqrt s < t ↔ 0 < t ∧ s < t ^ 2` and `Real.sqrt s > t ↔ t < 0 ∨ t ^ 2 < s`.
  The boolean predicates `distance_lt` / `distance_gt` below are exactly those
  right-hand sides, so no real square root is needed and everything stays
  decidable.
* The high-score file is modelled by its text content (a `String` field of the
  model); `save_high_score` / `load_high_score` render and parse decimal text
  the way Python's `str` / `int` do on the values this program produces.
* Fallible Python code (attribute access on `None`, `int()` parse errors,
  possibly nonterminating rejection sampling) is modelled with `Option`.
-/

namespace HungryChameleon

/-- Squared Euclidean distance between two points (`Vector2.distance_to`,
squared). -/
def distSq (a b : ℚ × ℚ) : ℚ :=
  (a.1 - b.1) ^ 2 + (a.2 - b.2) ^ 2

/-- `distance_to < t`, encoded on squares (see module docstring). -/
def distance_lt (a b : ℚ × ℚ) (t : ℚ) : Bool :=
  decide (0 < t ∧ distSq a b < t ^ 2)

/-- `distance_to > t`, encoded on squares (see module docstring). -/
def distance_gt (a b : ℚ × ℚ) (t : ℚ) : Bool :=
  decide (t < 0 ∨ t ^ 2 < distSq a b)

/-- Python `x % m` for floats: `x - m * ⌊x / m⌋` (result has the sign of the
divisor). -/
def pymod (x m : ℚ) : ℚ :=
  x - m * ⌊x / m⌋

/-- `utils.wrap_position(position, screen)`: wraps each coordinate modulo the
screen dimension on that axis. -/
def wrap_position (p : ℚ × ℚ) (w h : ℚ) : ℚ × ℚ :=
  (pymod p.1 w, pymod p.2 h)

/-- `models.GameObject`: position, velocity, collision radius.  The `tongue`
field models Python attribute lookup: `some b` means the object has a `tongue`
attribute holding `b` (a `Chameleon`); `none` means `hasattr(obj, "tongue")`
is false (a `Fly` or plain `GameObject`). -/
structure GameObject where
  position : ℚ × ℚ
  velocity : ℚ × ℚ
  radius : ℚ
  tongue : Option Bool
  deriving DecidableEq, Repr

/-- `GameObject.move`: `position := wrap_position(position + velocity, screen)`. -/
def GameObject.move (w h : ℚ) (g : GameObject) : GameObject :=
  { g with position := wrap_position (g.position + g.velocity) w h }

/-- `GameObject.collides_with(other_obj)` (models.py lines 72-88): returns a
falsy value when `other_obj` is `None`; otherwise compares the distance between
centers against the radius sum plus 100 when the other object has its tongue
out, and against the radius sum minus 10 otherwise. -/
def GameObject.collides_with (self : GameObject) (other : Option GameObject) : Bool :=
  match other with
  | none => false
  | some o =>
    match o.tongue with
    | some true => distance_lt self.position o.position (self.radius + o.radius + 100)
    | _ => distance_lt self.position o.position (self.radius + o.radius - 10)

/-- Collision predicate following the spec's words (§4.1): true iff the
Euclidean distance between centers is less than the sum of the two radii plus
a configurable tolerance.  Used to compare the spec's claim against the
source's `collides_with`. -/
def collidesSpec (a b : GameObject) (tol : ℚ) : Bool :=
  distance_lt a.position b.position (a.radius + b.radius + tol)

/-- `models.Chameleon`: player entity.  The sprite swap is not modelled
(the collision radius is fixed at construction and never recomputed from the
swapped sprite); rotation state (`direction`) is orthogonal to every claim and
omitted. -/
structure Chameleon where
  position : ℚ × ℚ
  rotation_point : ℚ × ℚ
  tongue : Bool
  tongue_start_time : ℕ
  deriving DecidableEq, Repr

/-- Chameleon collision radius: the sprite is scaled to width 150, and
`GameObject.__init__` sets `radius = sprite.get_width() / 2 = 75`. -/
def chameleonRadius : ℚ := 75

/-- Fly collision radius: the sprite is scaled to width 30, so `radius = 15`. -/
def flyRadius : ℚ := 15

/-- View of a chameleon as the `GameObject` its methods operate on:
velocity is `Vector2(0)`, radius 75, and it has a `tongue` attribute. -/
def Chameleon.toObj (c : Chameleon) : GameObject :=
  { position := c.position, velocity := (0, 0), radius := chameleonRadius,
    tongue := some c.tongue }

/-- `Chameleon.__init__(position, rotation_point, screen)`: tongue retracted,
`tongue_start_time = 0`. -/
def mkChameleon (position rotation_point : ℚ × ℚ) : Chameleon :=
  { position := position, rotation_point := rotation_point, tongue := false,
    tongue_start_time := 0 }

/-- `Fly.__init__` viewed as a `GameObject`: radius 15, no `tongue`
attribute; the (random) velocity is an input. -/
def mkFly (position velocity : ℚ × ℚ) : GameObject :=
  { position := position, velocity := velocity, radius := flyRadius,
    tongue := none }

/-- `Chameleon.update_tongue_time` (models.py lines 178-187): retracts the
tongue if it is out and at least 1000 ms have passed since
`tongue_start_time`.  `now` is the current `pygame.time.get_ticks()` value;
natural subtraction agrees with Python's because a negative difference also
fails the `≥ 1000` test. -/
def Chameleon.update_tongue_time (now : ℕ) (c : Chameleon) : Chameleon :=
  if c.tongue ∧ 1000 ≤ now - c.tongue_start_time then
    { c with tongue := false }
  else c

/-- `Chameleon.change_sprite` (models.py lines 159-176): if Space is held the
tongue comes out and `tongue_start_time` is set to the current tick; otherwise
if the tongue is out and 1000 ms have elapsed it retracts.  Then
`update_tongue_time` runs. -/
def Chameleon.change_sprite (space : Bool) (now : ℕ) (c : Chameleon) : Chameleon :=
  let c' :=
    if space then { c with tongue := true, tongue_start_time := now }
    else if c.tongue ∧ 1000 ≤ now - c.tongue_start_time then
      { c with tongue := false }
    else c
  c'.update_tongue_time now

/-- `Chameleon.move` (models.py lines 189-194): `change_sprite()` then the
inherited `move()` with the chameleon's zero velocity. -/
def Chameleon.move (w h : ℚ) (space : Bool) (now : ℕ) (c : Chameleon) : Chameleon :=
  let c' := c.change_sprite space now
  { c' with position := wrap_position (c'.position + (0, 0)) w h }

/-- Space-key part of `GameController.handle_input` (game.py lines 371-375),
for a present chameleon: if Space is held, set `tongue = True` and call
`change_sprite()` (which reads the same key state); otherwise set
`tongue = False`.  Arrow-key rotation (pure geometry, lines 367-370) touches
neither the tongue state nor anything else the claims mention and is not
modelled. -/
def handleSpaceInput (space : Bool) (now : ℕ) (c : Chameleon) : Chameleon :=
  if space then Chameleon.change_sprite true now { c with tongue := true }
  else { c with tongue := false }

/-- One frame of the game loop as it acts on the chameleon's tongue state
(game.py `game_loop`): `handle_input()` followed by the `change_sprite()` call
inside `model.update()`'s `chameleon.move()`. -/
def chamFrame (w h : ℚ) (space : Bool) (now : ℕ) (c : Chameleon) : Chameleon :=
  Chameleon.move w h space now (handleSpaceInput space now c)

/-- A run of frames: each frame supplies the Space-key state and the tick
clock value for that frame. -/
def chamRun (w h : ℚ) (c : Chameleon) (frames : List (Bool × ℕ)) : Chameleon :=
  frames.foldl (fun acc f => chamFrame w h f.1 f.2 acc) c

/-- Decimal digit to its character (code 48 is the character for zero), as
Python's `str` renders it. -/
def digitChar (d : ℕ) : Char :=
  if d < 10 then Char.ofNat (48 + d) else '*'

/-- Decimal digit character back to its value; `none` on any other character
(Python's `int()` raises `ValueError`). -/
def charToDigit (c : Char) : Option ℕ :=
  if 48 ≤ c.toNat ∧ c.toNat ≤ 57 then some (c.toNat - 48) else none

/-- Decimal digits of a natural number, most significant first
(`natDigits 0 = [0]`, matching `str(0) = "0"`). -/
def natDigits (n : ℕ) : List ℕ :=
  if _h : n < 10 then [n]
  else natDigits (n / 10) ++ [n % 10]
decreasing_by exact Nat.div_lt_self (by omega) (by omega)

/-- Python `str` on an `int`: decimal digits, with a leading minus sign for
negative values. -/
def intStr (n : ℤ) : List Char :=
  if n < 0 then '-' :: (natDigits (-n).toNat).map digitChar
  else (natDigits n.toNat).map digitChar

/-- Characters removed by Python's `str.strip()`. -/
def isPySpace (c : Char) : Bool :=
  c = ' ' ∨ c = '\t' ∨ c = '\n' ∨ c = '\r' ∨ c = '\x0b' ∨ c = '\x0c'

/-- Python `str.strip()`: drop leading and trailing whitespace. -/
def pyStrip (cs : List Char) : List Char :=
  ((cs.dropWhile isPySpace).reverse.dropWhile isPySpace).reverse

/-- All-characters-are-digits check: the digit values of a character list, or
`none` if some character is not a decimal digit. -/
def digitsOf (cs : List Char) : Option (List ℕ) :=
  match cs with
  | [] => some []
  | c :: rest =>
    match charToDigit c, digitsOf rest with
    | some d, some ds => some (d :: ds)
    | _, _ => none

/-- Value of a most-significant-first digit list. -/
def digitsVal (ds : List ℕ) : ℕ :=
  ds.foldl (fun a d => a * 10 + d) 0

/-- Python `int(s.strip())` on decimal text: optional leading minus sign, then
one or more digits; `none` models `ValueError`.  (The `+` sign and underscore
separators `int` also accepts never occur in text this program writes.) -/
def pyParseInt (s : String) : Option ℤ :=
  match pyStrip s.data with
  | [] => none
  | c :: rest =>
    if c = '-' then
      match digitsOf rest with
      | some (d :: ds) => some (-(digitsVal (d :: ds) : ℤ))
      | _ => none
    else
      match digitsOf (c :: rest) with
      | some (d :: ds) => some ((digitsVal (d :: ds) : ℤ))
      | _ => none

/-- `game.GameModel`: the screen dimensions stand in for the stored
`pygame.Surface`; `file` is the current text content of
`HIGH_SCORE_FILE.txt`; fonts and sprites are not modelled. -/
structure GameModel where
  w : ℚ
  h : ℚ
  chameleon : Option Chameleon
  fly : List GameObject
  score : ℕ
  high_score : ℤ
  file : String
  game_over : Bool
  deriving DecidableEq, Repr

/-- `GameModel.MIN_FLY_DISTANCE`. -/
def MIN_FLY_DISTANCE : ℚ := 250

/-- `GameModel.save_high_score` (game.py lines 135-140): overwrite the file
with `str(self.high_score)`. -/
def GameModel.save_high_score (st : GameModel) : GameModel :=
  { st with file := String.mk (intStr st.high_score) }

/-- `GameModel.load_high_score` (game.py lines 124-133):
`int(f.read().strip())`; `none` models the unhandled `ValueError` on corrupt
content. -/
def GameModel.load_high_score (st : GameModel) : Option ℤ :=
  pyParseInt st.file

/-- The rejection-sampling loop inside `GameModel._init_flies` (game.py lines
70-76): draw candidate positions until one is farther than
`MIN_FLY_DISTANCE` from the chameleon's position.  The random draws are an
input stream (a list); `none` models exhausting it (the loop never
terminating). -/
def spawn_position (cands : List (ℚ × ℚ)) (champos : ℚ × ℚ) : Option (ℚ × ℚ) :=
  cands.find? (fun p => distance_gt p champos MIN_FLY_DISTANCE)

/-- `GameModel._init_flies(count)`: one accepted spawn position per fly, each
fly getting a random velocity (an input).  `spawns` supplies, per fly, the
candidate-position stream and the velocity. -/
def init_flies (spawns : List (List (ℚ × ℚ) × (ℚ × ℚ))) (champos : ℚ × ℚ) :
    Option (List GameObject) :=
  match spawns with
  | [] => some []
  | s :: rest =>
    match spawn_position s.1 champos, init_flies rest champos with
    | some p, some flies => some (mkFly p s.2 :: flies)
    | _, _ => none

/-- `GameModel.__init__(screen)` (game.py lines 40-55): chameleon at
`(400, 300)` rotating about `(400, 300)`, six flies, score 0, high score
loaded from the file (a parse failure is the unhandled fatal error, modelled
as `none`), `game_over = False`. -/
def GameModel.init (w h : ℚ) (file : String)
    (spawns : List (List (ℚ × ℚ) × (ℚ × ℚ))) : Option GameModel :=
  if spawns.length = 6 then
    match init_flies spawns (400, 300), pyParseInt file with
    | some flies, some hs =>
      some { w := w, h := h,
             chameleon := some (mkChameleon (400, 300) (400, 300)),
             fly := flies, score := 0, high_score := hs, file := file,
             game_over := false }
    | _, _ => none
  else none

/-- `GameModel.get_game_objects` (game.py lines 96-103):
`[*self.fly, self.chameleon] if self.chameleon else self.fly`. -/
def GameModel.get_game_objects (st : GameModel) : List GameObject :=
  match st.chameleon with
  | some c => st.fly ++ [c.toObj]
  | none => st.fly

/-- The catch branch of `GameModel.check_collisions` (game.py lines 114-118):
remove the fly at index `i`, add 100 to the score, and if the score now
exceeds the high score, update and persist it. -/
def catchFly (st : GameModel) (i : ℕ) : GameModel :=
  let score' := st.score + 100
  if (score' : ℤ) > st.high_score then
    GameModel.save_high_score
      { st with fly := st.fly.eraseIdx i, score := score',
                high_score := (score' : ℤ) }
  else
    { st with fly := st.fly.eraseIdx i, score := score' }

/-- The `for fly in self.fly:` loop of `GameModel.check_collisions` (game.py
lines 111-122), with CPython's list-iterator semantics made explicit: the
iterator holds a cursor `i` into the live list, so `self.fly.remove(fly)`
(which removes the entry the cursor just passed) shifts the remaining
elements left while the cursor still advances — the element that followed a
removed fly is never visited.  Accessing `.tongue` on a `None` chameleon
would raise `AttributeError`, modelled by `none`. -/
def ccLoop (st : GameModel) (i : ℕ) : Option GameModel :=
  if h : i < st.fly.length then
    if (st.fly.get ⟨i, h⟩).collides_with (st.chameleon.map Chameleon.toObj) then
      match st.chameleon with
      | some c =>
        if c.tongue then ccLoop (catchFly st i) (i + 1)
        else some { st with chameleon := none, game_over := true }
      | none => none
    else ccLoop st (i + 1)
  else some st
termination_by st.fly.length - i
decreasing_by
  · have hl : (catchFly st i).fly.length = st.fly.length - 1 := by
      have he : (catchFly st i).fly = st.fly.eraseIdx i := by
        unfold catchFly GameModel.save_high_score
        dsimp only
        split <;> rfl
      rw [he]
      exact List.length_eraseIdx_of_lt h
    omega
  · omega

/-- `GameModel.check_collisions` (game.py lines 105-122). -/
def GameModel.check_collisions (st : GameModel) : Option GameModel :=
  ccLoop st 0

/-- `GameModel.update` (game.py lines 80-87): move every object returned by
`get_game_objects` (each fly with its own velocity, the chameleon via its
overridden `move`, which reads the Space key and the tick clock), then
`check_collisions`. -/
def GameModel.update (space : Bool) (now : ℕ) (st : GameModel) : Option GameModel :=
  GameModel.check_collisions
    { st with fly := st.fly.map (GameObject.move st.w st.h),
              chameleon := st.chameleon.map (Chameleon.move st.w st.h space now) }

/-- The invariant claimed in the spec (§3): the game is over exactly when the
chameleon is absent. -/
def gameOverInv (st : GameModel) : Prop :=
  st.game_over = true ↔ st.chameleon = none

/-- Concrete chameleon with tongue out, used to exercise the theorems on
explicit inputs. -/
def chamT : Chameleon :=
  { mkChameleon (400, 300) (400, 300) with tongue := true }

/-- Concrete chameleon with tongue retracted. -/
def chamR : Chameleon :=
  mkChameleon (400, 300) (400, 300)

/-- Concrete state: tongue out, two consecutive flies both within catch range
(distance 60 resp. 50 from the chameleon, catch threshold
15 + 75 + 100 = 190). -/
def exTwoFlies : GameModel :=
  { w := 860, h := 600, chameleon := some chamT,
    fly := [mkFly (400, 240) (1, 0), mkFly (400, 250) (2, 0)],
    score := 0, high_score := 0, file := String.mk ['0'], game_over := false }

/-- Concrete state: tongue retracted, one fly within lethal range
(distance 50 from the chameleon, threshold 15 + 75 - 10 = 80). -/
def exLethal : GameModel :=
  { w := 860, h := 600, chameleon := some chamR,
    fly := [mkFly (400, 250) (0, 0)],
    score := 0, high_score := 0, file := String.mk ['0'], game_over := false }

/-- Concrete state with the chameleon absent (game over). -/
def exAbsent : GameModel :=
  { w := 860, h := 600, chameleon := none,
    fly := [mkFly (100, 100) (3, 4), mkFly (700, 500) (-2, 1)],
    score := 300, high_score := 300, file := String.mk ['3', '0', '0'],
    game_over := true }

/-! ## Theorems -/

theorem catchFly_fly (st : GameModel) (i : ℕ) :
    (catchFly st i).fly = st.fly.eraseIdx i := by
  unfold catchFly GameModel.save_high_score
  dsimp only
  split <;> rfl

theorem catchFly_chameleon (st : GameModel) (i : ℕ) :
    (catchFly st i).chameleon = st.chameleon := by
  unfold catchFly GameModel.save_high_score
  dsimp only
  split <;> rfl

theorem catchFly_game_over (st : GameModel) (i : ℕ) :
    (catchFly st i).game_over = st.game_over := by
  unfold catchFly GameModel.save_high_score
  dsimp only
  split <;> rfl

theorem catchFly_score (st : GameModel) (i : ℕ) :
    (catchFly st i).score = st.score + 100 := by
  unfold catchFly GameModel.save_high_score
  dsimp only
  split <;> rfl

/-- C1 counterexample: a fly of radius 15 at `(0,0)` and a tongue-retracted
chameleon of radius 75 at `(85,0)` are at distance 85, which is less than the
radius sum 90, so the claim (tolerance 0) says they collide — but the source
compares against `radius sum - 10 = 80` and reports no collision. -/
theorem C1_counterexample :
    collidesSpec (mkFly (85, 0) (0, 0)) { chamR.toObj with position := (0, 0) } 0 = true ∧
    (mkFly (85, 0) (0, 0)).collides_with (some { chamR.toObj with position := (0, 0) }) = false := by
  with_unfolding_all decide

/-- C1, amended: `collides_with(other)` returns true iff the Euclidean
distance between centers is less than the sum of the two radii plus a
tolerance of `+100` when the other object's tongue is out and `-10`
otherwise (never the claimed default tolerance 0); a falsy (`None`) other
object never collides. -/
theorem C1_collides_tolerance (a b : GameObject) :
    (a.collides_with (some b) =
      if b.tongue = some true then collidesSpec a b 100 else collidesSpec a b (-10)) ∧
    a.collides_with none = false := by
  refine ⟨?_, rfl⟩
  have e : a.radius + b.radius - 10 = a.radius + b.radius + (-10) := by ring
  rcases hb : b.tongue with _ | tb
  · simp [GameObject.collides_with, collidesSpec, hb, e]
  · cases tb
    · simp [GameObject.collides_with, collidesSpec, hb, e]
    · simp [GameObject.collides_with, collidesSpec, hb]

/-- C3 counterexample: holding Space continuously across frames at ticks
0, 400, 800, 1200 (so more than 1000 ms after the first activation) leaves
the tongue Extended and the recorded activation time refreshed to the latest
frame — the code never retracts at the 1000 ms mark while the key is held,
and the timestamp is not refreshed only on the not-held→held transition. -/
theorem C3_counterexample :
    (chamRun 860 600 chamR [(true, 0), (true, 400), (true, 800), (true, 1200)]).tongue
        = true ∧
    (chamRun 860 600 chamR
        [(true, 0), (true, 400), (true, 800), (true, 1200)]).tongue_start_time = 1200 ∧
    chamR.tongue = false ∧ 1000 ≤ 1200 - 0 := by
  refine ⟨by decide, by decide, rfl, by omega⟩

/-- C3, amended: after any frame the tongue is Extended exactly when Space is
held during that frame (release retracts immediately), and on every held
frame the activation timestamp is refreshed to that frame's tick — so the
timestamp is not refreshed only on the not-held→held transition, and under a
continuous hold the elapsed-time test never reaches 1000 ms: there is no cap
on how long the tongue stays Extended. -/
theorem C3_tongue_follows_key (w h : ℚ) (space : Bool) (now : ℕ) (c : Chameleon) :
    (chamFrame w h space now c).tongue = space ∧
    (chamFrame w h true now c).tongue_start_time = now := by
  constructor
  · cases space <;>
      simp [chamFrame, handleSpaceInput, Chameleon.move, Chameleon.change_sprite,
        Chameleon.update_tongue_time]
  · simp [chamFrame, handleSpaceInput, Chameleon.move, Chameleon.change_sprite,
      Chameleon.update_tongue_time]

theorem pymod_nonneg (x m : ℚ) (hm : 0 < m) : 0 ≤ pymod x m := by
  have h := Int.sub_floor_div_mul_nonneg x hm
  unfold pymod
  linarith [h]

theorem pymod_lt (x m : ℚ) (hm : 0 < m) : pymod x m < m := by
  have h := Int.sub_floor_div_mul_lt x hm
  unfold pymod
  linarith [h]

/-- C4: one application of `move()` lands in `[0, w) × [0, h)` for every
starting position and velocity, on any screen with positive dimensions. -/
theorem C4_move_wraps (g : GameObject) (w h : ℚ) (hw : 0 < w) (hh : 0 < h) :
    0 ≤ (g.move w h).position.1 ∧ (g.move w h).position.1 < w ∧
    0 ≤ (g.move w h).position.2 ∧ (g.move w h).position.2 < h := by
  refine ⟨pymod_nonneg _ _ hw, pymod_lt _ _ hw, pymod_nonneg _ _ hh, pymod_lt _ _ hh⟩

/-- C4 witness: a fly far outside an 860×600 screen with a large velocity. -/
theorem C4_move_wraps_witness :
    0 < (860 : ℚ) ∧ 0 < (600 : ℚ) ∧
    (0 ≤ ((mkFly (1000, -50) (5000, -1000)).move 860 600).position.1 ∧
      ((mkFly (1000, -50) (5000, -1000)).move 860 600).position.1 < 860 ∧
      0 ≤ ((mkFly (1000, -50) (5000, -1000)).move 860 600).position.2 ∧
      ((mkFly (1000, -50) (5000, -1000)).move 860 600).position.2 < 600) :=
  ⟨by norm_num, by norm_num,
    C4_move_wraps (mkFly (1000, -50) (5000, -1000)) 860 600 (by norm_num) (by norm_num)⟩

/-- C8: an accepted fly spawn position is one of the drawn candidates and its
Euclidean distance to the chameleon's position is strictly greater than 250
(`distSq > 250²`; candidates at distance ≤ 250 fail the test and are
redrawn). -/
theorem C8_spawn_distance (cands : List (ℚ × ℚ)) (champos p : ℚ × ℚ)
    (hp : spawn_position cands champos = some p) :
    p ∈ cands ∧ MIN_FLY_DISTANCE ^ 2 < distSq p champos := by
  refine ⟨List.mem_of_find?_eq_some hp, ?_⟩
  have h := List.find?_some hp
  simp only [distance_gt, decide_eq_true_eq] at h
  rcases h with h | h
  · exfalso
    rw [MIN_FLY_DISTANCE] at h
    norm_num at h
  · exact h

set_option maxRecDepth 4000 in
/-- C8 witness: the first two candidates (at distances 10 and 0) are
rejected; the third, at distance 300, is accepted. -/
theorem C8_spawn_distance_witness :
    spawn_position [(400, 310), (400, 300), (700, 300)] (400, 300) = some (700, 300) ∧
    ((700, 300) ∈ [((400 : ℚ), (310 : ℚ)), (400, 300), (700, 300)] ∧
      MIN_FLY_DISTANCE ^ 2 < distSq (700, 300) (400, 300)) :=
  ⟨by with_unfolding_all decide,
    C8_spawn_distance [(400, 310), (400, 300), (700, 300)] (400, 300) (700, 300)
      (by with_unfolding_all decide)⟩

theorem natDigits_ne_nil (n : ℕ) : natDigits n ≠ [] := by
  rw [natDigits]
  split <;> simp

theorem natDigits_mem_lt (n : ℕ) : ∀ d ∈ natDigits n, d < 10 := by
  induction n using Nat.strong_induction_on with
  | _ n ih =>
    rw [natDigits]
    split
    · next h =>
      intro d hd
      simp only [List.mem_singleton] at hd
      omega
    · next h =>
      intro d hd
      rcases List.mem_append.mp hd with h1 | h2
      · exact ih (n / 10) (Nat.div_lt_self (by omega) (by omega)) d h1
      · simp only [List.mem_singleton] at h2
        omega

theorem foldl_natDigits (n : ℕ) :
    ∀ a : ℕ, (natDigits n).foldl (fun x d => x * 10 + d) a
      = a * 10 ^ (natDigits n).length + n := by
  induction n using Nat.strong_induction_on with
  | _ n ih =>
    intro a
    rw [natDigits]
    split
    · next h =>
      simp [List.foldl]
    · next h =>
      rw [List.foldl_append, ih (n / 10) (Nat.div_lt_self (by omega) (by omega)) a,
        List.length_append]
      have hmod : n / 10 * 10 + n % 10 = n := by omega
      calc (a * 10 ^ (natDigits (n / 10)).length + n / 10) * 10 + n % 10
          = a * (10 ^ (natDigits (n / 10)).length * 10) + (n / 10 * 10 + n % 10) := by
            ring
        _ = a * 10 ^ ((natDigits (n / 10)).length + [n % 10].length) + n := by
            rw [hmod, List.length_singleton, pow_succ]

theorem digitsVal_natDigits (n : ℕ) : digitsVal (natDigits n) = n := by
  have h := foldl_natDigits n 0
  simpa [digitsVal] using h

theorem charToDigit_digitChar (d : ℕ) (h : d < 10) :
    charToDigit (digitChar d) = some d := by
  interval_cases d <;> rfl

theorem digitsOf_map_digitChar (ds : List ℕ) (h : ∀ d ∈ ds, d < 10) :
    digitsOf (ds.map digitChar) = some ds := by
  induction ds with
  | nil => rfl
  | cons d rest ih =>
    have hd : d < 10 := h d (List.mem_cons_self d rest)
    rw [List.map_cons, digitsOf, charToDigit_digitChar d hd,
      ih (fun x hx => h x (List.mem_cons_of_mem d hx))]

theorem dropWhile_eq_self_of_all_neg {p : Char → Bool} {l : List Char}
    (h : ∀ c ∈ l, p c = false) : l.dropWhile p = l := by
  cases l with
  | nil => rfl
  | cons c cs =>
    rw [List.dropWhile_cons, h c (List.mem_cons_self c cs)]
    simp

theorem pyStrip_of_all_neg {l : List Char} (h : ∀ c ∈ l, isPySpace c = false) :
    pyStrip l = l := by
  unfold pyStrip
  rw [dropWhile_eq_self_of_all_neg h,
    dropWhile_eq_self_of_all_neg (fun c hc => h c (List.mem_reverse.mp hc)),
    List.reverse_reverse]

theorem isPySpace_digitChar (d : ℕ) (h : d < 10) : isPySpace (digitChar d) = false := by
  interval_cases d <;> rfl

theorem digitChar_ne_dash (d : ℕ) (h : d < 10) : ¬ digitChar d = '-' := by
  interval_cases d <;> decide

/-- C9: persisting a nonnegative high score and loading it back yields the
same value: `save_high_score` writes the decimal rendering of
`high_score` to the file and `load_high_score` parses it back. -/
theorem C9_high_score_roundtrip (st : GameModel) (hnn : 0 ≤ st.high_score) :
    st.save_high_score.load_high_score = some st.high_score := by
  unfold GameModel.save_high_score GameModel.load_high_score pyParseInt
  dsimp only
  rw [intStr, if_neg (by omega)]
  have hall : ∀ d ∈ natDigits st.high_score.toNat, d < 10 := natDigits_mem_lt _
  have hns : ∀ c ∈ (natDigits st.high_score.toNat).map digitChar, isPySpace c = false := by
    intro c hc
    rcases List.mem_map.mp hc with ⟨d, hd, rfl⟩
    exact isPySpace_digitChar d (hall d hd)
  rw [pyStrip_of_all_neg hns]
  cases hnd : natDigits st.high_score.toNat with
  | nil => exact absurd hnd (natDigits_ne_nil _)
  | cons d ds =>
    have hall' : ∀ x ∈ d :: ds, x < 10 := by
      intro x hx
      exact hall x (hnd ▸ hx)
    have hd10 : d < 10 := hall' d (List.mem_cons_self d ds)
    have hdig : digitsOf (digitChar d :: ds.map digitChar) = some (d :: ds) := by
      have h := digitsOf_map_digitChar (d :: ds) hall'
      simpa using h
    have hval : digitsVal (d :: ds) = st.high_score.toNat := by
      rw [← hnd]
      exact digitsVal_natDigits _
    simp only [List.map_cons]
    rw [if_neg (digitChar_ne_dash d hd10), hdig]
    dsimp only
    rw [hval, Int.toNat_of_nonneg hnn]

/-- C9 witness: round-trip on the concrete high score 300. -/
theorem C9_high_score_roundtrip_witness :
    0 ≤ exAbsent.high_score ∧
    exAbsent.save_high_score.load_high_score = some exAbsent.high_score :=
  ⟨by decide, C9_high_score_roundtrip exAbsent (by decide)⟩

theorem ccLoop_catch_step (st : GameModel) (c : Chameleon) (i : ℕ) (f : GameObject)
    (hc : st.chameleon = some c) (ht : c.tongue = true)
    (hf : st.fly[i]? = some f)
    (hcol : f.collides_with (st.chameleon.map Chameleon.toObj) = true) :
    ccLoop st i = ccLoop (catchFly st i) (i + 1) := by
  obtain ⟨hi, he⟩ := List.getElem?_eq_some_iff.mp hf
  have he' : st.fly.get ⟨i, hi⟩ = f := he
  rw [ccLoop, dif_pos hi, he', if_pos hcol, hc]
  dsimp only
  rw [if_pos ht]

theorem ccLoop_tongue_extended (k : ℕ) :
    ∀ (st : GameModel) (c : Chameleon) (i : ℕ),
      st.chameleon = some c → c.tongue = true → st.fly.length - i ≤ k →
      ∃ st', ccLoop st i = some st' ∧ st'.chameleon = st.chameleon ∧
        st'.game_over = st.game_over ∧ List.Sublist st'.fly st.fly ∧
        st'.score = st.score + 100 * (st.fly.length - st'.fly.length) := by
  induction k with
  | zero =>
    intro st c i hc ht hk
    rw [ccLoop, dif_neg (by omega)]
    exact ⟨st, rfl, rfl, rfl, List.Sublist.refl _, by omega⟩
  | succ k ih =>
    intro st c i hc ht hk
    by_cases hi : i < st.fly.length
    · rw [ccLoop, dif_pos hi]
      by_cases hcol : (st.fly.get ⟨i, hi⟩).collides_with (st.chameleon.map Chameleon.toObj) = true
      · rw [if_pos hcol, hc]
        dsimp only
        rw [if_pos ht]
        have hlen : (catchFly st i).fly.length = st.fly.length - 1 := by
          rw [catchFly_fly]
          exact List.length_eraseIdx_of_lt hi
        have hcc : (catchFly st i).chameleon = some c := by
          rw [catchFly_chameleon, hc]
        obtain ⟨st', h1, h2, h3, h4, h5⟩ := ih (catchFly st i) c (i + 1) hcc ht (by omega)
        refine ⟨st', h1, ?_, ?_, ?_, ?_⟩
        · rw [h2, hcc]
        · rw [h3, catchFly_game_over]
        · exact h4.trans (catchFly_fly st i ▸ List.eraseIdx_sublist st.fly i)
        · have hsc := catchFly_score st i
          have hle : st'.fly.length ≤ (catchFly st i).fly.length := h4.length_le
          omega
      · rw [if_neg hcol]
        exact ih st c (i + 1) hc ht (by omega)
    · rw [ccLoop, dif_neg hi]
      exact ⟨st, rfl, rfl, rfl, List.Sublist.refl _, by omega⟩

theorem ccLoop_lethal (k : ℕ) :
    ∀ (st : GameModel) (c : Chameleon) (i j : ℕ) (f : GameObject),
      st.chameleon = some c → c.tongue = false →
      i ≤ j → st.fly[j]? = some f →
      f.collides_with (st.chameleon.map Chameleon.toObj) = true →
      j - i ≤ k →
      ccLoop st i = some { st with chameleon := none, game_over := true } := by
  induction k with
  | zero =>
    intro st c i j f hc ht hij hj hcol hk
    have hej : i = j := by omega
    subst hej
    obtain ⟨hi, he⟩ := List.getElem?_eq_some_iff.mp hj
    have he' : st.fly.get ⟨i, hi⟩ = f := he
    rw [ccLoop, dif_pos hi, he', if_pos hcol, hc]
    dsimp only
    rw [if_neg (by rw [ht]; exact Bool.false_ne_true)]
  | succ k ih =>
    intro st c i j f hc ht hij hj hcol hk
    obtain ⟨hj', hej⟩ := List.getElem?_eq_some_iff.mp hj
    have hi : i < st.fly.length := lt_of_le_of_lt (by omega : i ≤ j) hj'
    rw [ccLoop, dif_pos hi]
    by_cases hcoli : (st.fly.get ⟨i, hi⟩).collides_with (st.chameleon.map Chameleon.toObj) = true
    · rw [if_pos hcoli, hc]
      dsimp only
      rw [if_neg (by rw [ht]; exact Bool.false_ne_true)]
    · rw [if_neg hcoli]
      have hne : i ≠ j := by
        intro h
        subst h
        have hej' : st.fly.get ⟨i, hi⟩ = f := hej
        exact hcoli (by rw [hej']; exact hcol)
      exact ih st c (i + 1) j f hc ht (by omega) hj hcol (by omega)

theorem ccLoop_absent (k : ℕ) :
    ∀ (st : GameModel) (i : ℕ), st.chameleon = none → st.fly.length - i ≤ k →
      ccLoop st i = some st := by
  induction k with
  | zero =>
    intro st i hc hk
    rw [ccLoop, dif_neg (by omega)]
  | succ k ih =>
    intro st i hc hk
    by_cases hi : i < st.fly.length
    · rw [ccLoop, dif_pos hi, hc]
      rw [if_neg (by simp [GameObject.collides_with])]
      exact ih st (i + 1) hc (by omega)
    · rw [ccLoop, dif_neg hi]

theorem ccLoop_preserves_inv (k : ℕ) :
    ∀ (st : GameModel) (i : ℕ) (st' : GameModel),
      st.fly.length - i ≤ k → ccLoop st i = some st' →
      gameOverInv st → gameOverInv st' := by
  induction k with
  | zero =>
    intro st i st' hk hcc hinv
    rw [ccLoop, dif_neg (by omega)] at hcc
    cases hcc
    exact hinv
  | succ k ih =>
    intro st i st' hk hcc hinv
    by_cases hi : i < st.fly.length
    · rw [ccLoop, dif_pos hi] at hcc
      cases hcham : st.chameleon with
      | none =>
        rw [hcham] at hcc
        rw [if_neg (by simp [GameObject.collides_with])] at hcc
        exact ih st (i + 1) st' (by omega) hcc hinv
      | some c =>
        rw [hcham] at hcc
        by_cases hcol :
            (st.fly.get ⟨i, hi⟩).collides_with (Option.map Chameleon.toObj (some c)) = true
        · rw [if_pos hcol] at hcc
          dsimp only at hcc
          by_cases ht : c.tongue = true
          · rw [if_pos ht] at hcc
            have hlen : (catchFly st i).fly.length = st.fly.length - 1 := by
              rw [catchFly_fly]
              exact List.length_eraseIdx_of_lt hi
            refine ih (catchFly st i) (i + 1) st' (by omega) hcc ?_
            unfold gameOverInv at hinv ⊢
            rw [catchFly_game_over, catchFly_chameleon]
            exact hinv
          · rw [if_neg ht] at hcc
            cases hcc
            unfold gameOverInv
            simp
        · rw [if_neg hcol] at hcc
          exact ih st (i + 1) st' (by omega) hcc hinv
    · rw [ccLoop, dif_neg hi] at hcc
      cases hcc
      exact hinv

theorem check_collisions_exTwoFlies :
    exTwoFlies.check_collisions = some (catchFly exTwoFlies 0) := by
  have hcol0 : (exTwoFlies.fly.get ⟨0, by decide⟩).collides_with
      (exTwoFlies.chameleon.map Chameleon.toObj) = true := by
    with_unfolding_all decide
  unfold GameModel.check_collisions
  rw [ccLoop, dif_pos (by decide : 0 < exTwoFlies.fly.length), if_pos hcol0,
    show exTwoFlies.chameleon = some chamT from rfl]
  dsimp only
  rw [if_pos (show chamT.tongue = true from rfl)]
  rw [ccLoop, dif_neg (show ¬ 1 < (catchFly exTwoFlies 0).fly.length by decide)]

/-- C2 counterexample: two consecutive flies both collide with the
tongue-out chameleon, yet a single `check_collisions` pass catches only the
first: removing it shifts the list under the iterator's cursor, so the second
colliding fly survives the tick and only 100 points are scored (the claim
demands both removed and 200 points). -/
theorem C2_counterexample :
    (mkFly (400, 240) (1, 0)).collides_with (exTwoFlies.chameleon.map Chameleon.toObj) = true ∧
    (mkFly (400, 250) (2, 0)).collides_with (exTwoFlies.chameleon.map Chameleon.toObj) = true ∧
    exTwoFlies.fly = [mkFly (400, 240) (1, 0), mkFly (400, 250) (2, 0)] ∧
    (GameModel.check_collisions exTwoFlies).map (fun m => (m.fly, m.score))
      = some ([mkFly (400, 250) (2, 0)], 100) := by
  refine ⟨by with_unfolding_all decide, by with_unfolding_all decide, rfl, ?_⟩
  rw [check_collisions_exTwoFlies]
  with_unfolding_all decide

/-- C2, amended: in a `check_collisions` pass with the tongue Extended
throughout, every colliding fly the iterator visits is caught — caught and
removed in place, which makes the pass resume past the list entry that
slid into the removed fly's slot, so the fly immediately following a caught
fly is skipped that tick (the counterexample shows a colliding fly
surviving).  No lethal processing happens: the chameleon and `game_over`
are untouched, the surviving flies are a sublist of the original list, and
the score grows by exactly 100 per removed fly. -/
theorem C2_extended_pass :
    (∀ (st : GameModel) (c : Chameleon) (i : ℕ) (f : GameObject),
      st.chameleon = some c → c.tongue = true → st.fly[i]? = some f →
      f.collides_with (st.chameleon.map Chameleon.toObj) = true →
      ccLoop st i = ccLoop (catchFly st i) (i + 1)) ∧
    (∀ (st : GameModel) (c : Chameleon), st.chameleon = some c → c.tongue = true →
      ∃ st', st.check_collisions = some st' ∧ st'.chameleon = st.chameleon ∧
        st'.game_over = st.game_over ∧ List.Sublist st'.fly st.fly ∧
        st'.score = st.score + 100 * (st.fly.length - st'.fly.length)) := by
  constructor
  · exact ccLoop_catch_step
  · intro st c hc ht
    exact ccLoop_tongue_extended st.fly.length st c 0 hc ht (by omega)

/-- C2 witness: the amended pass theorem instantiated on the concrete
two-fly state. -/
theorem C2_extended_pass_witness :
    exTwoFlies.chameleon = some chamT ∧ chamT.tongue = true ∧
    exTwoFlies.fly[0]? = some (mkFly (400, 240) (1, 0)) ∧
    (mkFly (400, 240) (1, 0)).collides_with
      (exTwoFlies.chameleon.map Chameleon.toObj) = true ∧
    ccLoop exTwoFlies 0 = ccLoop (catchFly exTwoFlies 0) 1 ∧
    (∃ st', exTwoFlies.check_collisions = some st' ∧
      st'.chameleon = exTwoFlies.chameleon ∧ st'.game_over = exTwoFlies.game_over ∧
      List.Sublist st'.fly exTwoFlies.fly ∧
      st'.score = exTwoFlies.score + 100 * (exTwoFlies.fly.length - st'.fly.length)) :=
  ⟨rfl, rfl, rfl, by with_unfolding_all decide,
    C2_extended_pass.1 exTwoFlies chamT 0 (mkFly (400, 240) (1, 0)) rfl rfl rfl
      (by with_unfolding_all decide),
    C2_extended_pass.2 exTwoFlies chamT rfl rfl⟩

/-- C5: processing a collision with the tongue Extended removes exactly the
colliding fly (the list entry at the cursor), adds exactly 100 to the score,
leaves the chameleon in place, and updates and persists the high score
exactly when the new score strictly exceeds it; the collision pass indeed
performs this update and continues. -/
theorem C5_catch_processing (st : GameModel) (c : Chameleon) (i : ℕ) (f : GameObject)
    (hc : st.chameleon = some c) (ht : c.tongue = true)
    (hf : st.fly[i]? = some f)
    (hcol : f.collides_with (st.chameleon.map Chameleon.toObj) = true) :
    ccLoop st i = ccLoop (catchFly st i) (i + 1) ∧
    (catchFly st i).fly = st.fly.eraseIdx i ∧
    (catchFly st i).fly.length + 1 = st.fly.length ∧
    (catchFly st i).score = st.score + 100 ∧
    (catchFly st i).chameleon = st.chameleon ∧
    ((st.score : ℤ) + 100 > st.high_score →
      (catchFly st i).high_score = (st.score : ℤ) + 100 ∧
      (catchFly st i).file = String.mk (intStr ((st.score : ℤ) + 100))) ∧
    ((st.score : ℤ) + 100 ≤ st.high_score →
      (catchFly st i).high_score = st.high_score ∧ (catchFly st i).file = st.file) := by
  obtain ⟨hi, he⟩ := List.getElem?_eq_some_iff.mp hf
  refine ⟨ccLoop_catch_step st c i f hc ht hf hcol, catchFly_fly st i, ?_, catchFly_score st i,
    catchFly_chameleon st i, ?_, ?_⟩
  · rw [catchFly_fly]
    have := List.length_eraseIdx_of_lt hi
    omega
  · intro hgt
    unfold catchFly GameModel.save_high_score
    dsimp only
    rw [if_pos (by push_cast; linarith [hgt])]
    constructor
    · push_cast
      rfl
    · have : ((st.score + 100 : ℕ) : ℤ) = (st.score : ℤ) + 100 := by push_cast; rfl
      rw [this]
  · intro hle
    unfold catchFly GameModel.save_high_score
    dsimp only
    rw [if_neg (by push_cast; omega)]
    exact ⟨rfl, rfl⟩

/-- C5 witness: catching the first fly of the concrete two-fly state takes
the score from 0 to 100, past the stored high score 0, so the high score is
updated and the file rewritten to the decimal text 100. -/
theorem C5_catch_processing_witness :
    exTwoFlies.chameleon = some chamT ∧ chamT.tongue = true ∧
    exTwoFlies.fly[0]? = some (mkFly (400, 240) (1, 0)) ∧
    (mkFly (400, 240) (1, 0)).collides_with
      (exTwoFlies.chameleon.map Chameleon.toObj) = true ∧
    (exTwoFlies.score : ℤ) + 100 > exTwoFlies.high_score ∧
    ((catchFly exTwoFlies 0).high_score = (exTwoFlies.score : ℤ) + 100 ∧
      (catchFly exTwoFlies 0).file = String.mk (intStr ((exTwoFlies.score : ℤ) + 100))) ∧
    (catchFly exTwoFlies 0).fly = exTwoFlies.fly.eraseIdx 0 ∧
    (catchFly exTwoFlies 0).score = exTwoFlies.score + 100 :=
  ⟨rfl, rfl, rfl, by with_unfolding_all decide, by with_unfolding_all decide,
    (C5_catch_processing exTwoFlies chamT 0 (mkFly (400, 240) (1, 0)) rfl rfl rfl
      (by with_unfolding_all decide)).2.2.2.2.2.1 (by with_unfolding_all decide),
    (C5_catch_processing exTwoFlies chamT 0 (mkFly (400, 240) (1, 0)) rfl rfl rfl
      (by with_unfolding_all decide)).2.1,
    (C5_catch_processing exTwoFlies chamT 0 (mkFly (400, 240) (1, 0)) rfl rfl rfl
      (by with_unfolding_all decide)).2.2.2.1⟩

/-- C6: if some fly collides while the tongue is Retracted, the collision
pass ends with the chameleon absent and `game_over = true`, and neither the
score, the fly list, nor the high score is touched in that tick. -/
theorem C6_lethal_collision (st : GameModel) (c : Chameleon)
    (hc : st.chameleon = some c) (ht : c.tongue = false)
    (hex : ∃ f ∈ st.fly, f.collides_with (st.chameleon.map Chameleon.toObj) = true) :
    ∃ st', st.check_collisions = some st' ∧ st'.chameleon = none ∧
      st'.game_over = true ∧ st'.score = st.score ∧ st'.fly = st.fly ∧
      st'.high_score = st.high_score ∧ st'.file = st.file := by
  obtain ⟨f, hmem, hcol⟩ := hex
  obtain ⟨j, hj⟩ := List.getElem?_of_mem hmem
  exact ⟨{ st with chameleon := none, game_over := true },
    ccLoop_lethal j st c 0 j f hc ht (Nat.zero_le j) hj hcol (by omega),
    rfl, rfl, rfl, rfl, rfl, rfl⟩

/-- C6 witness: the lethal theorem instantiated on the concrete
tongue-retracted state with one fly at distance 50 (threshold 80). -/
theorem C6_lethal_collision_witness :
    exLethal.chameleon = some chamR ∧ chamR.tongue = false ∧
    (∃ f ∈ exLethal.fly,
      f.collides_with (exLethal.chameleon.map Chameleon.toObj) = true) ∧
    (∃ st', exLethal.check_collisions = some st' ∧ st'.chameleon = none ∧
      st'.game_over = true ∧ st'.score = exLethal.score ∧ st'.fly = exLethal.fly ∧
      st'.high_score = exLethal.high_score ∧ st'.file = exLethal.file) :=
  ⟨rfl, rfl, ⟨mkFly (400, 250) (0, 0), List.mem_cons_self _ _, by with_unfolding_all decide⟩,
    C6_lethal_collision exLethal chamR rfl rfl
      ⟨mkFly (400, 250) (0, 0), List.mem_cons_self _ _, by with_unfolding_all decide⟩⟩

/-- C7: the invariant (`game_over` iff the chameleon is absent) holds in a
freshly constructed model and is preserved by `check_collisions`, by
`update`, and by `save_high_score` (loading the high score does not mutate
the model at all). -/
theorem C7_game_over_invariant :
    (∀ (w h : ℚ) (file : String) (spawns : List (List (ℚ × ℚ) × (ℚ × ℚ)))
      (st : GameModel), GameModel.init w h file spawns = some st → gameOverInv st) ∧
    (∀ (st st' : GameModel), st.check_collisions = some st' →
      gameOverInv st → gameOverInv st') ∧
    (∀ (space : Bool) (now : ℕ) (st st' : GameModel),
      GameModel.update space now st = some st' → gameOverInv st → gameOverInv st') ∧
    (∀ st : GameModel, gameOverInv st → gameOverInv st.save_high_score) := by
  have hcc : ∀ (st st' : GameModel), st.check_collisions = some st' →
      gameOverInv st → gameOverInv st' := by
    intro st st' h hinv
    exact ccLoop_preserves_inv st.fly.length st 0 st' (by omega) h hinv
  refine ⟨?_, hcc, ?_, ?_⟩
  · intro w h file spawns st hinit
    unfold GameModel.init at hinit
    split at hinit
    · split at hinit
      · cases hinit
        unfold gameOverInv
        simp
      · cases hinit
    · cases hinit
  · intro space now st st' hupd hinv
    unfold GameModel.update at hupd
    refine hcc _ st' hupd ?_
    unfold gameOverInv at hinv ⊢
    dsimp only
    rw [Option.map_eq_none']
    exact hinv
  · intro st hinv
    unfold gameOverInv at hinv ⊢
    unfold GameModel.save_high_score
    dsimp only
    exact hinv

/-- C7 witness: the invariant holds on the concrete two-fly state and is
preserved by running `check_collisions` on it. -/
theorem C7_game_over_invariant_witness :
    gameOverInv exTwoFlies ∧
    exTwoFlies.check_collisions = some (catchFly exTwoFlies 0) ∧
    gameOverInv (catchFly exTwoFlies 0) :=
  ⟨by unfold gameOverInv; simp [exTwoFlies],
    check_collisions_exTwoFlies,
    C7_game_over_invariant.2.1 exTwoFlies (catchFly exTwoFlies 0)
      check_collisions_exTwoFlies
      (by unfold gameOverInv; simp [exTwoFlies])⟩

/-- C10: a collision test against an absent (`None`) chameleon reports no
collision without touching the absent object, `get_game_objects` returns
only the flies, and a full `update` with the chameleon absent completes
without error (`some`), leaving the score, `game_over`, and the number of
flies unchanged. -/
theorem C10_absent_chameleon_safe :
    (∀ g : GameObject, g.collides_with none = false) ∧
    (∀ st : GameModel, st.chameleon = none → st.get_game_objects = st.fly) ∧
    (∀ (space : Bool) (now : ℕ) (st : GameModel), st.chameleon = none →
      ∃ st', GameModel.update space now st = some st' ∧ st'.score = st.score ∧
        st'.game_over = st.game_over ∧ st'.fly.length = st.fly.length ∧
        st'.chameleon = none) := by
  refine ⟨fun g => rfl, ?_, ?_⟩
  · intro st hc
    unfold GameModel.get_game_objects
    rw [hc]
  · intro space now st hc
    unfold GameModel.update GameModel.check_collisions
    set st1 : GameModel :=
      { st with fly := st.fly.map (GameObject.move st.w st.h),
                chameleon := st.chameleon.map (Chameleon.move st.w st.h space now) }
      with hst1
    have hc1 : st1.chameleon = none := by
      rw [hst1]
      dsimp only
      rw [hc]
      rfl
    refine ⟨st1, ccLoop_absent st1.fly.length st1 0 hc1 (by omega), rfl, rfl, ?_, hc1⟩
    rw [hst1]
    dsimp only
    rw [List.length_map]

/-- C10 witness: an update of the concrete chameleon-less state moves the
flies but changes neither score, game-over flag, nor fly count. -/
theorem C10_absent_chameleon_safe_witness :
    exAbsent.chameleon = none ∧
    (∃ st', GameModel.update true 500 exAbsent = some st' ∧
      st'.score = exAbsent.score ∧ st'.game_over = exAbsent.game_over ∧
      st'.fly.length = exAbsent.fly.length ∧ st'.chameleon = none) :=
  ⟨rfl, C10_absent_chameleon_safe.2.2 true 500 exAbsent rfl⟩

end HungryChameleon
